import Mathlib

/-!
Verification of the WebODM LAS-to-images conversion planner.

Shallow embedding of `app/scripts/las_to_images.py` (tile-grid planner,
perspective-view sampler, RGB dispatch with intensity fallback, filename
construction) and of `app/api/lasconversion.py` (TIF-to-JPG output
collection, post-run output reconciliation, download-path construction).
Real arithmetic of the source is modelled over the rationals; the two
square roots the source takes (`math.sqrt` in the target-count tile-size
solver and in the perspective grid size) are modelled by an explicit
nonnegative value constrained by a squaring hypothesis, respectively by
an exact natural-number ceiling square root.
-/

/-- Bounding extent of a point cloud, from `pdal info --summary` bounds
(minx/miny/maxx/maxy as used by the planners; z bounds are not consumed
by any planning decision modelled here). -/
structure Extent where
  minx : ℚ
  miny : ℚ
  maxx : ℚ
  maxy : ℚ
deriving DecidableEq, Repr

/-- One planned tile: grid position and the clamped crop window, from the
loop body of `create_multiview_images` (las_to_images.py lines 387-406). -/
structure TileSpec where
  row : ℕ
  col : ℕ
  wminx : ℚ
  wmaxx : ℚ
  wminy : ℚ
  wmaxy : ℚ
deriving DecidableEq, Repr

/-- The tile-grid planner, from `create_multiview_images`
(las_to_images.py lines 371-406): step is tile_size scaled by one minus
overlap; cols and rows are ceilings of width and height over step when
step is positive and default to 1 otherwise; iteration is row-major; each
raw window is clamped to the extent and degenerate windows are dropped. -/
def planTiles (ext : Extent) (tile_size overlap : ℚ) : List TileSpec :=
  let w := ext.maxx - ext.minx
  let h := ext.maxy - ext.miny
  let step := tile_size * (1 - overlap)
  let cols : ℤ := if 0 < step then ⌈w / step⌉ else 1
  let rows : ℤ := if 0 < step then ⌈h / step⌉ else 1
  (List.range rows.toNat).flatMap (fun (r : ℕ) =>
    (List.range cols.toNat).filterMap (fun (c : ℕ) =>
      let tminx := ext.minx + (c : ℚ) * step
      let tminy := ext.miny + (r : ℚ) * step
      let tmaxx := tminx + tile_size
      let tmaxy := tminy + tile_size
      let cminx := max ext.minx tminx
      let cminy := max ext.miny tminy
      let cmaxx := min ext.maxx tmaxx
      let cmaxy := min ext.maxy tmaxy
      if cmaxx ≤ cminx ∨ cmaxy ≤ cminy then none
      else some (TileSpec.mk r c cminx cmaxx cminy cmaxy)))

/-- The clamped window the planner computes for grid cell (r, c); used to
state the row-major characterisation of `planTiles`. -/
def tileAt (ext : Extent) (tile_size step : ℚ) (r c : ℕ) : TileSpec :=
  ⟨r, c,
    max ext.minx (ext.minx + (c : ℚ) * step),
    min ext.maxx (ext.minx + (c : ℚ) * step + tile_size),
    max ext.miny (ext.miny + (r : ℚ) * step),
    min ext.maxy (ext.miny + (r : ℚ) * step + tile_size)⟩

/-- Auto-shrink of an oversized tile, from `create_multiview_images`
(las_to_images.py lines 340-344): a tile_size strictly larger than the
largest extent dimension is replaced by 40 percent of that dimension. -/
def autoShrinkTileSize (w h tile_size : ℚ) : ℚ :=
  if max w h < tile_size then max w h * (4/10) else tile_size

/-- Target-count tile-size adjustment, from `create_multiview_images`
(las_to_images.py lines 347-366). The source computes
`calculated_tile_size = math.sqrt(area / (count * (1-overlap)^2))`; the
square root is supplied here as the argument `s`, which callers constrain
by the hypothesis that `s` is nonnegative and squares to
`area / (count * (1-overlap)^2)`. The overlap argument is kept to mirror
the source signature; it enters only through that hypothesis on `s`. -/
def adjustTileSizeForCount (w h tile_size overlap : ℚ) (count : Option ℕ) (s : ℚ) : ℚ :=
  match count with
  | none => tile_size
  | some n =>
    if 0 < n then
      if 0 < w * h then
        let clamped := max 10 (min s (max w h * (9/10)))
        if 1 < |clamped - tile_size| then clamped else tile_size
      else tile_size
    else tile_size

/-- The tile size actually used by the planner: auto-shrink first, then
the optional target-count adjustment (source order, lines 340-366). -/
def plannedTileSize (w h tile_size overlap : ℚ) (count : Option ℕ) (s : ℚ) : ℚ :=
  adjustTileSizeForCount w h (autoShrinkTileSize w h tile_size) overlap count s

/-- Spec-side restatement of the target-count recalculation, written from
the spec's words for comparison against the source translation: clamp the
recomputed size to the band from 10 up to 0.9 times the largest extent
dimension, then adopt it exactly when it differs from the current size by
more than one unit. -/
def specAdoptTileSize (current s maxDim : ℚ) : ℚ :=
  let clamped := max 10 (min s (maxDim * (9/10)))
  if 1 < |clamped - current| then clamped else current

/-- Python float modulo with a positive divisor, as used for
`azimuth = (i * 360.0 / count) % 360` (las_to_images.py line 683). -/
def qmod (a b : ℚ) : ℚ := a - b * ⌊a / b⌋

/-- Ceiling square root of a natural number, the exact value of
`math.ceil(math.sqrt(count))` (las_to_images.py line 676). -/
def natCeilSqrt (n : ℕ) : ℕ :=
  if Nat.sqrt n * Nat.sqrt n = n then Nat.sqrt n else Nat.sqrt n + 1

/-- Python `int()` applied to a rational: truncation toward zero, as used
for the azimuth and elevation integers embedded in view filenames. -/
def pyInt (q : ℚ) : ℤ := if 0 ≤ q then ⌊q⌋ else ⌈q⌉

/-- Python format `:02d` on a natural number. -/
def pad2 (n : ℕ) : String :=
  if n < 10 then "0" ++ toString n else toString n

/-- Python format `:03d` on a natural number. -/
def pad3 (n : ℕ) : String :=
  if n < 10 then "00" ++ toString n
  else if n < 100 then "0" ++ toString n
  else toString n

/-- Tile filename, from las_to_images.py line 406: base, mode,
"_tile_r", two-digit row, "_c", two-digit column, ".tif". -/
def tileFileName (base mode : String) (row col : ℕ) : String :=
  base ++ "_" ++ mode ++ "_tile_r" ++ pad2 row ++ "_c" ++ pad2 col ++ ".tif"

/-- Perspective-view filename, from las_to_images.py line 712: the source
formats the loop index plus one (`i+1:03d`), then the truncated azimuth
and elevation. -/
def viewFileName (base : String) (i : ℕ) (az el : ℚ) : String :=
  base ++ "_view_" ++ pad3 (i + 1) ++ "_az" ++ toString (pyInt az) ++
    "_el" ++ toString (pyInt el) ++ ".tif"

/-- Single-image filename, from las_to_images.py line 1115. The source
interpolates the resolution float into the name; the already-formatted
resolution token is taken here as a string argument. -/
def singleImageFileName (base mode resStr : String) : String :=
  base ++ "_" ++ mode ++ "_" ++ resStr ++ "m.tif"

/-- Spec-side tile filename, written from the spec's naming convention:
base, mode, "_tile_r", 2-digit row, "_c", 2-digit column, ".tif". -/
def specTileFileName (base mode : String) (row col : ℕ) : String :=
  base ++ "_" ++ mode ++ "_tile_r" ++ pad2 row ++ "_c" ++ pad2 col ++ ".tif"

/-- Spec-side perspective filename, written from the spec's naming
convention with the view's index itself (indices 0..count-1) formatted
as the 3-digit field. -/
def specViewFileName (base : String) (idx : ℕ) (az el : ℤ) : String :=
  base ++ "_view_" ++ pad3 idx ++ "_az" ++ toString az ++
    "_el" ++ toString el ++ ".tif"

/-- Spec-side single-image filename from the spec's naming convention. -/
def specSingleImageFileName (base mode resStr : String) : String :=
  base ++ "_" ++ mode ++ "_" ++ resStr ++ "m.tif"

/-- One planned perspective view, from the loop body of
`create_perspective_views` (las_to_images.py lines 680-712): the loop
index, post-jitter azimuth and elevation, the crop window, the per-view
resolution and the output filename. -/
structure ViewSpec where
  index : ℕ
  azimuth : ℚ
  elevation : ℚ
  cminx : ℚ
  cmaxx : ℚ
  cminy : ℚ
  cmaxy : ℚ
  resolution : ℚ
  name : String
deriving DecidableEq, Repr

/-- The perspective-view sampler, from `create_perspective_views`
(las_to_images.py lines 676-712). The random draws
`random.uniform(-5, 5)`, `random.uniform(-3, 3)` and
`random.uniform(0.9, 1.1)` are modelled by the jitter sources jA, jE, jR
indexed by the loop counter; theorems constrain them to the uniform
ranges where the claims do. Azimuth is the modulo of the even
distribution plus (for count above 10) the azimuth jitter; elevation is
the band value plus jitter clamped to the 10..85 band; the crop window
covers 60 percent of each axis offset by the grid cell. -/
def planViews (base : String) (ext : Extent) (count : ℕ) (res : ℚ)
    (jA jE jR : ℕ → ℚ) : List ViewSpec :=
  let w := ext.maxx - ext.minx
  let h := ext.maxy - ext.miny
  let g := natCeilSqrt count
  (List.range count).map (fun (i : ℕ) =>
    let azBase := qmod ((i : ℚ) * 360 / (count : ℚ)) 360
    let elBase : ℚ := 10 + ((i % 8 : ℕ) : ℚ) * (75/7)
    let az := if 10 < count then azBase + jA i else azBase
    let el := if 10 < count then max 10 (min 85 (elBase + jE i)) else elBase
    let gr := i / g
    let gc := i % g
    let offX := ((gc : ℚ) / (g : ℚ)) * w * (1 - 6/10)
    let offY := ((gr : ℚ) / (g : ℚ)) * h * (1 - 6/10)
    let vminx := ext.minx + offX
    let vmaxx := vminx + w * (6/10)
    let vminy := ext.miny + offY
    let vmaxy := vminy + h * (6/10)
    ViewSpec.mk i az el vminx vmaxx vminy vmaxy (res * jR i)
      (viewFileName base i az el))

/-- Outcome of one stubbed rasterization engine for a single
perspective-view TrueColor dispatch (las_to_images.py lines 729-954):
whether each component band run produces a nonempty file, whether the
intensity rasterization succeeds, whether the GDAL tools are present and
whether the VRT stack plus translate succeed with a nonempty result. -/
structure ViewEngine where
  bandOk : ℕ → Bool
  intensityOk : Bool
  gdalAvailable : Bool
  stackOk : Bool
  stackedNonempty : Bool

/-- Outcome of one stubbed engine for a single multiview-tile TrueColor
dispatch (las_to_images.py lines 439-551). -/
structure TileEngine where
  bandOk : ℕ → Bool
  gdalAvailable : Bool
  stackOk : Bool
  intensityOk : Bool

/-- Final artifact of a perspective-view dispatch: the composite RGB
raster, the cropped intensity fallback (band-failure path, lines
781-825), the uncropped base-resolution intensity fallback (stack-failure
paths, lines 853-954), or nothing. -/
inductive ViewOutcome
  | rgb
  | intensity
  | intensityFull
  | failed
deriving DecidableEq, Repr

/-- Final artifact of a multiview-tile dispatch: composite RGB, the
single red band moved into place when GDAL is missing (lines 506-514),
the cropped intensity fallback (lines 515-551), or nothing. -/
inductive TileOutcome
  | rgb
  | singleBandRed
  | intensity
  | failed
deriving DecidableEq, Repr

/-- Index of the first failing band in the Red, Green, Blue order the
source attempts (bands 0, 1, 2), if any. -/
def firstBandFail (bandOk : ℕ → Bool) : Option ℕ :=
  if !bandOk 0 then some 0
  else if !bandOk 1 then some 1
  else if !bandOk 2 then some 2
  else none

/-- Perspective-view TrueColor dispatch for one view, from
las_to_images.py lines 729-954, returning the outcome and the indices of
component band files left on disk afterwards. Bands are attempted in
order and the loop breaks at the first failure (lines 732-779); a failing
band leaves no file. On band failure the view is re-rasterized as
cropped Intensity (lines 781-820) and the partial band files are removed
(lines 821-825) — but the removal is reached only when the intensity run
does not raise, so a failing intensity run leaks the earlier bands. When
all bands succeed: with GDAL present, a successful stack with nonempty
output yields the RGB artifact and cleanup (line 914); a failed stack or
empty output falls back to uncropped intensity, with cleanup reached only
on success. With GDAL absent the bands are removed first (lines 924-926)
and uncropped intensity is attempted. -/
def dispatchViewRgb (e : ViewEngine) : ViewOutcome × List ℕ :=
  match firstBandFail e.bandOk with
  | some k =>
    if e.intensityOk then (ViewOutcome.intensity, [])
    else (ViewOutcome.failed, List.range k)
  | none =>
    if e.gdalAvailable then
      if e.stackOk && e.stackedNonempty then (ViewOutcome.rgb, [])
      else if e.intensityOk then (ViewOutcome.intensityFull, [])
      else (ViewOutcome.failed, [0, 1, 2])
    else
      if e.intensityOk then (ViewOutcome.intensityFull, [])
      else (ViewOutcome.failed, [])

/-- Multiview-tile TrueColor dispatch for one tile, from las_to_images.py
lines 439-551, returning the outcome and the band files left on disk.
Any band failure raises out of the try block into the handler at line
515, which swaps the pipeline to cropped Intensity and continues — it
never removes the band files already created. A successful stack removes
them (lines 501-503); a stack failure reaches the same handler, again
without cleanup. With GDAL missing the red band is moved to the output
and green/blue are removed (lines 506-514). -/
def dispatchTileRgb (e : TileEngine) : TileOutcome × List ℕ :=
  match firstBandFail e.bandOk with
  | some k =>
    if e.intensityOk then (TileOutcome.intensity, List.range k)
    else (TileOutcome.failed, List.range k)
  | none =>
    if e.gdalAvailable then
      if e.stackOk then (TileOutcome.rgb, [])
      else if e.intensityOk then (TileOutcome.intensity, [0, 1, 2])
      else (TileOutcome.failed, [0, 1, 2])
    else (TileOutcome.singleBandRed, [])

/-- Result of one gdal_translate TIF-to-JPG conversion as observed on
disk: byte size of the produced JPG and its first up-to-two header
bytes (lasconversion.py lines 554-570). -/
structure JpgOut where
  size : ℕ
  hdr : List ℕ
deriving DecidableEq, Repr

/-- One input TIF file of `convert_tifs_to_jpgs`: its stem, its byte
size, and the conversion outcome (none when gdal_translate fails or the
JPG is never created; lasconversion.py lines 353-544). -/
structure TifInput where
  stem : String
  size : ℕ
  conv : Option JpgOut
deriving DecidableEq, Repr

/-- Per-file body of the `convert_tifs_to_jpgs` loop (lasconversion.py
lines 353-591): a zero-byte input TIF is skipped (line 357); a failed or
absent conversion is skipped (lines 540-557); a zero-byte JPG is skipped
(lines 559-562); a JPG whose first two bytes are not the JPEG marker
0xff 0xd8 is skipped (lines 564-570); otherwise the stem.jpg artifact is
collected. -/
def convertOne (t : TifInput) : Option String :=
  if t.size = 0 then none
  else
    match t.conv with
    | none => none
    | some j =>
      if j.size = 0 then none
      else if j.hdr = [255, 216] then some (t.stem ++ ".jpg")
      else none

/-- The output collector `convert_tifs_to_jpgs` (lasconversion.py lines
328-609): failure when no input TIFs exist (lines 339-342); otherwise the
loop collects the valid artifacts and the call succeeds exactly when at
least one was collected (lines 593-609). No expected count enters the
success criterion. -/
def convertTifsToJpgs (tifs : List TifInput) : Bool × List String :=
  if tifs = [] then (false, [])
  else
    let js := tifs.filterMap convertOne
    if js = [] then (false, []) else (true, js)

/-- Suffix of `s` after the first occurrence of `pat`, or none when `pat`
does not occur; the building block for glob patterns with interior
wildcards. -/
def subAfter : List Char → List Char → Option (List Char)
  | [], pat => if pat = [] then some [] else none
  | c :: rest, pat =>
    if pat.isPrefixOf (c :: rest) then some ((c :: rest).drop pat.length)
    else subAfter rest pat

/-- Whether the given fragments occur in `s` in order, without
overlapping: the semantics of the interior stars of a glob pattern. -/
def containsInOrder : List Char → List (List Char) → Bool
  | _, [] => true
  | s, p :: ps =>
    match subAfter s p with
    | none => false
    | some rest => containsInOrder rest ps

/-- String wrapper for `containsInOrder`. -/
def strContainsInOrder (s : String) (pats : List String) : Bool :=
  containsInOrder s.toList (pats.map String.toList)

/-- Suffix check over the character lists, the semantics of a trailing
glob literal such as ".tif". -/
def strEndsWith (s suffix : String) : Bool :=
  suffix.toList.isSuffixOf s.toList

/-- Glob star-view-star-dot-tif (lasconversion.py lines 121, 170): the
name contains "view" and ends with ".tif". For the literal fragments the
source uses, an in-order containment check plus the suffix check agrees
with glob semantics. -/
def patViewTif (s : String) : Bool :=
  strContainsInOrder s ["view"] && strEndsWith s ".tif"

/-- Glob star-mode-star-view-star-dot-tif (lasconversion.py line 122). -/
def patModeViewTif (mode : String) (s : String) : Bool :=
  strContainsInOrder s [mode, "view"] && strEndsWith s ".tif"

/-- Glob star-dot-tif, the catch-all last pattern (lasconversion.py
lines 123, 172). -/
def patAllTif (s : String) : Bool := strEndsWith s ".tif"

/-- Glob star-mode-star-tile-star-dot-tif (lasconversion.py line 169). -/
def patModeTileTif (mode : String) (s : String) : Bool :=
  strContainsInOrder s [mode, "tile"] && strEndsWith s ".tif"

/-- Glob star-underscore-tile-underscore-star-dot-tif (lasconversion.py
line 171). -/
def patTileTif (s : String) : Bool :=
  strContainsInOrder s ["_tile_"] && strEndsWith s ".tif"

/-- Glob star-mode-star-dot-tif, the perspective fall-through pattern
(lasconversion.py line 213). -/
def patModeTif (mode : String) (s : String) : Bool :=
  strContainsInOrder s [mode] && strEndsWith s ".tif"

/-- First pattern whose filter over the directory is nonempty, returning
its matches: the `for pattern in patterns: ... break` loops of
lasconversion.py lines 125-130 and 174-179. -/
def firstNonemptyMatch : List (String → Bool) → List String → List String
  | [], _ => []
  | p :: ps, files =>
    let m := files.filter p
    if m = [] then firstNonemptyMatch ps files else m

/-- Which conversion branch ran: the perspective branch or the multiview
branch of `convert_las_to_images` (lasconversion.py lines 98-198). The
two request flags are mutually exclusive in the wrapper because
use_perspective is tested first. -/
inductive RunKind
  | perspective
  | multiview
deriving DecidableEq, Repr

/-- Patterns the wrapper tries after the run, in source order
(lasconversion.py lines 120-124 for perspective, 168-173 for
multiview). -/
def wrapperPatterns (kind : RunKind) (mode : String) : List (String → Bool) :=
  match kind with
  | RunKind.perspective => [patViewTif, patModeViewTif mode, patAllTif]
  | RunKind.multiview => [patModeTileTif mode, patViewTif, patTileTif, patAllTif]

/-- The fall-through re-glob pattern (lasconversion.py lines 210-213). -/
def wrapperFallbackPattern (kind : RunKind) (mode : String) : String → Bool :=
  match kind with
  | RunKind.perspective => patModeTif mode
  | RunKind.multiview => if mode = "rgb" then patViewTif else patModeTileTif mode

/-- Post-run output reconciliation of `convert_las_to_images`
(lasconversion.py lines 119-138 and 165-198, then 209-219): if any
pattern matches files, report success with those files even when the
conversion function returned failure; otherwise, if the function
returned failure, report failure; otherwise fall through to one more
glob and report failure when it also matches nothing. The error strings
stand in for the source's assembled messages. -/
def wrapperCollect (kind : RunKind) (mode : String) (success : Bool)
    (dirFiles : List String) : Bool × List String × Option String :=
  let files := firstNonemptyMatch (wrapperPatterns kind mode) dirFiles
  if files ≠ [] then (true, files, none)
  else if success = false then
    (false, [], some "conversion function reported failure")
  else
    let files2 := dirFiles.filter (wrapperFallbackPattern kind mode)
    if files2 ≠ [] then (true, files2, none)
    else (false, [], some "No output files were created")

/-- Python `os.path.basename`: everything after the last slash.
Notably, basename of ".." is ".." — no slash, nothing stripped. Used by
`LASConversionDownloadView.get` (lasconversion.py lines 806-807). -/
def pyBasename (s : String) : String :=
  ((s.toList.reverse.takeWhile (fun c => c ≠ '/')).reverse).asString

/-- Path segments contributed by a basename result under
`os.path.join`: an empty component contributes nothing, any other
slash-free component is one segment. -/
def segsOf (s : String) : List String := if s = "" then [] else [s]

/-- The candidate file paths the download endpoint probes, as segment
lists rooted at MEDIA_TMP, from `LASConversionDownloadView.get`
(lasconversion.py lines 806-815): both request parameters are first
reduced to their basenames, then joined under the media temp root. -/
def candidatePaths (mediaTmp : List String) (tempDir fname : String) :
    List (List String) :=
  let t := segsOf (pyBasename tempDir)
  let f := segsOf (pyBasename fname)
  [mediaTmp ++ t ++ ["converted_images.zip"],
   mediaTmp ++ t ++ ["jpg"] ++ f,
   mediaTmp ++ t ++ ["tif"] ++ f,
   mediaTmp ++ t ++ f]

/-- Filesystem resolution of a segment path from the root: a ".."
segment pops the last resolved segment, a "." segment is a no-op. -/
def resolveSegs (p : List String) : List String :=
  p.foldl
    (fun acc s =>
      if s = "." then acc
      else if s = ".." then acc.dropLast
      else acc ++ [s]) []

lemma filterMap_eq_map_of_forall {α β : Type} (f : α → Option β) (g : α → β)
    (l : List α) (h : ∀ a ∈ l, f a = some (g a)) : l.filterMap f = l.map g := by
  induction l with
  | nil => rfl
  | cons a t ih =>
    rw [List.filterMap_cons, List.map_cons, h a (List.mem_cons_self a t),
      ih (fun b hb => h b (List.mem_cons_of_mem a hb))]

lemma range_mul_map_eq_flatMap {β : Type} (m n : ℕ) (f : ℕ → ℕ → β) :
    (List.range (m * n)).map (fun k => f (k / n) (k % n)) =
      (List.range m).flatMap (fun r => (List.range n).map (f r)) := by
  rcases Nat.eq_zero_or_pos n with hn | hn
  · subst hn; simp
  · induction m with
    | zero => simp
    | succ m ih =>
      rw [Nat.succ_mul, List.range_add, List.map_append, ih, List.range_succ,
        List.flatMap_append, List.flatMap_singleton, List.map_map]
      congr 1
      apply List.map_congr_left
      intro j hj
      have hjn : j < n := List.mem_range.mp hj
      have hdiv : (m * n + j) / n = m := by
        rw [Nat.mul_comm, Nat.mul_add_div hn, Nat.div_eq_of_lt hjn, Nat.add_zero]
      have hmod : (m * n + j) % n = j := by
        rw [Nat.add_comm, Nat.add_mul_mod_self_right, Nat.mod_eq_of_lt hjn]
      simp [hdiv, hmod]

lemma flatMap_congr_mem {α β : Type} (l : List α) (f g : α → List β)
    (h : ∀ a ∈ l, f a = g a) : l.flatMap f = l.flatMap g := by
  induction l with
  | nil => rfl
  | cons a t ih =>
    rw [List.flatMap_cons, List.flatMap_cons, h a (List.mem_cons_self a t),
      ih (fun b hb => h b (List.mem_cons_of_mem a hb))]

lemma col_mul_step_lt {w step : ℚ} {colsN c : ℕ} (hstep : 0 < step)
    (hcols : (colsN : ℤ) = ⌈w / step⌉) (hc : c < colsN) : (c : ℚ) * step < w := by
  have h1 : ((c : ℤ) : ℚ) < w / step := by
    rw [← Int.lt_ceil, ← hcols]
    exact_mod_cast hc
  have h2 : (c : ℚ) < w / step := by exact_mod_cast h1
  exact (lt_div_iff₀ hstep).mp h2

/-- Row-major characterisation of the tile grid: when width, height,
tile_size and step are positive, no window is dropped and the planner's
output is exactly the rows-by-cols grid of clamped windows enumerated
row-major. -/
lemma planTiles_eq_rowMajor (ext : Extent) (ts ov step : ℚ) (colsN rowsN : ℕ)
    (hstepdef : step = ts * (1 - ov))
    (hcols : (colsN : ℤ) = ⌈(ext.maxx - ext.minx) / step⌉)
    (hrows : (rowsN : ℤ) = ⌈(ext.maxy - ext.miny) / step⌉)
    (hts : 0 < ts) (hstep : 0 < step) :
    planTiles ext ts ov =
      (List.range (rowsN * colsN)).map
        (fun k => tileAt ext ts step (k / colsN) (k % colsN)) := by
  have hstep' : 0 < ts * (1 - ov) := hstepdef ▸ hstep
  have hcolsN : (⌈(ext.maxx - ext.minx) / (ts * (1 - ov))⌉).toNat = colsN := by
    rw [← hstepdef, ← hcols, Int.toNat_natCast]
  have hrowsN : (⌈(ext.maxy - ext.miny) / (ts * (1 - ov))⌉).toNat = rowsN := by
    rw [← hstepdef, ← hrows, Int.toNat_natCast]
  simp only [planTiles, if_pos hstep', hcolsN, hrowsN]
  rw [range_mul_map_eq_flatMap]
  apply flatMap_congr_mem
  intro r hr
  apply filterMap_eq_map_of_forall
  intro c hc
  have hc' : c < colsN := List.mem_range.mp hc
  have hr' : r < rowsN := List.mem_range.mp hr
  have hx : (c : ℚ) * step < ext.maxx - ext.minx := col_mul_step_lt hstep hcols hc'
  have hy : (r : ℚ) * step < ext.maxy - ext.miny := col_mul_step_lt hstep hrows hr'
  have hxnn : (0 : ℚ) ≤ (c : ℚ) * step :=
    mul_nonneg (by exact_mod_cast Nat.zero_le c) (le_of_lt hstep)
  have hynn : (0 : ℚ) ≤ (r : ℚ) * step :=
    mul_nonneg (by exact_mod_cast Nat.zero_le r) (le_of_lt hstep)
  have hmaxx : max ext.minx (ext.minx + (c : ℚ) * step) = ext.minx + (c : ℚ) * step :=
    max_eq_right (by linarith)
  have hmaxy : max ext.miny (ext.miny + (r : ℚ) * step) = ext.miny + (r : ℚ) * step :=
    max_eq_right (by linarith)
  have hndx : max ext.minx (ext.minx + (c : ℚ) * step) <
      min ext.maxx (ext.minx + (c : ℚ) * step + ts) := by
    rw [hmaxx]
    exact lt_min (by linarith) (by linarith)
  have hndy : max ext.miny (ext.miny + (r : ℚ) * step) <
      min ext.maxy (ext.miny + (r : ℚ) * step + ts) := by
    rw [hmaxy]
    exact lt_min (by linarith) (by linarith)
  rw [← hstepdef]
  rw [if_neg]
  · rfl
  · push_neg
    exact ⟨hndx, hndy⟩

/-- Window count of the tile grid under positive step and sizes. -/
lemma planTiles_length (ext : Extent) (ts ov step : ℚ) (colsN rowsN : ℕ)
    (hstepdef : step = ts * (1 - ov))
    (hcols : (colsN : ℤ) = ⌈(ext.maxx - ext.minx) / step⌉)
    (hrows : (rowsN : ℤ) = ⌈(ext.maxy - ext.miny) / step⌉)
    (hts : 0 < ts) (hstep : 0 < step) :
    (planTiles ext ts ov).length = rowsN * colsN := by
  rw [planTiles_eq_rowMajor ext ts ov step colsN rowsN hstepdef hcols hrows hts hstep]
  simp

/-- Every planned window is clamped inside the extent and non-degenerate. -/
lemma planTiles_mem_clamped (ext : Extent) (ts ov step : ℚ) (colsN rowsN : ℕ)
    (hstepdef : step = ts * (1 - ov))
    (hcols : (colsN : ℤ) = ⌈(ext.maxx - ext.minx) / step⌉)
    (hrows : (rowsN : ℤ) = ⌈(ext.maxy - ext.miny) / step⌉)
    (hts : 0 < ts) (hstep : 0 < step) :
    ∀ t ∈ planTiles ext ts ov,
      ext.minx ≤ t.wminx ∧ t.wminx < t.wmaxx ∧ t.wmaxx ≤ ext.maxx ∧
      ext.miny ≤ t.wminy ∧ t.wminy < t.wmaxy ∧ t.wmaxy ≤ ext.maxy := by
  rw [planTiles_eq_rowMajor ext ts ov step colsN rowsN hstepdef hcols hrows hts hstep]
  intro t ht
  obtain ⟨k, hk, rfl⟩ := List.mem_map.mp ht
  have hk' : k < rowsN * colsN := List.mem_range.mp hk
  have hcpos : 0 < colsN := by
    rcases Nat.eq_zero_or_pos colsN with h | h
    · subst h; omega
    · exact h
  have hc : k % colsN < colsN := Nat.mod_lt _ hcpos
  have hk2 : k < colsN * rowsN := by rw [Nat.mul_comm]; exact hk'
  have hr : k / colsN < rowsN := Nat.div_lt_of_lt_mul hk2
  have hx : ((k % colsN : ℕ) : ℚ) * step < ext.maxx - ext.minx :=
    col_mul_step_lt hstep hcols hc
  have hy : ((k / colsN : ℕ) : ℚ) * step < ext.maxy - ext.miny :=
    col_mul_step_lt hstep hrows hr
  have hxnn : (0 : ℚ) ≤ ((k % colsN : ℕ) : ℚ) * step :=
    mul_nonneg (by exact_mod_cast Nat.zero_le _) (le_of_lt hstep)
  have hynn : (0 : ℚ) ≤ ((k / colsN : ℕ) : ℚ) * step :=
    mul_nonneg (by exact_mod_cast Nat.zero_le _) (le_of_lt hstep)
  simp only [tileAt]
  refine ⟨le_max_left _ _, ?_, min_le_left _ _, le_max_left _ _, ?_, min_le_left _ _⟩
  · rw [max_eq_right (by linarith)]
    exact lt_min (by linarith) (by linarith)
  · rw [max_eq_right (by linarith)]
    exact lt_min (by linarith) (by linarith)

/-- C3: for positive width, height and step, the tile planner yields
exactly ceil(width/step) columns and ceil(height/step) rows (each at
least 1) of windows in row-major order, each clamped to the extent and
non-degenerate; the 1000-by-1000 extent with tile_size 100 and overlap
0.3 (225 windows clamped at 1000) is the witness instance. -/
theorem tile_planner_rowMajor_grid (ext : Extent) (ts ov step : ℚ) (colsN rowsN : ℕ)
    (hstepdef : step = ts * (1 - ov))
    (hcols : (colsN : ℤ) = ⌈(ext.maxx - ext.minx) / step⌉)
    (hrows : (rowsN : ℤ) = ⌈(ext.maxy - ext.miny) / step⌉)
    (hw : 0 < ext.maxx - ext.minx) (hh : 0 < ext.maxy - ext.miny)
    (hts : 0 < ts) (hstep : 0 < step) :
    1 ≤ colsN ∧ 1 ≤ rowsN ∧
    planTiles ext ts ov =
      (List.range (rowsN * colsN)).map
        (fun k => tileAt ext ts step (k / colsN) (k % colsN)) ∧
    (planTiles ext ts ov).length = rowsN * colsN ∧
    ∀ t ∈ planTiles ext ts ov,
      ext.minx ≤ t.wminx ∧ t.wminx < t.wmaxx ∧ t.wmaxx ≤ ext.maxx ∧
      ext.miny ≤ t.wminy ∧ t.wminy < t.wmaxy ∧ t.wmaxy ≤ ext.maxy := by
  have hc1 : (0 : ℤ) < colsN := by
    rw [hcols]
    exact Int.ceil_pos.mpr (div_pos hw hstep)
  have hr1 : (0 : ℤ) < rowsN := by
    rw [hrows]
    exact Int.ceil_pos.mpr (div_pos hh hstep)
  refine ⟨by exact_mod_cast hc1, by exact_mod_cast hr1,
    planTiles_eq_rowMajor ext ts ov step colsN rowsN hstepdef hcols hrows hts hstep,
    planTiles_length ext ts ov step colsN rowsN hstepdef hcols hrows hts hstep,
    planTiles_mem_clamped ext ts ov step colsN rowsN hstepdef hcols hrows hts hstep⟩

/-- Witness for C3: the spec scenario, extent 0..1000 squared, tile_size
100, overlap 0.3, step 70, a 15-by-15 grid of 225 windows; the last
row/column window (r14, c14) is clamped to end exactly at 1000. -/
theorem tile_planner_rowMajor_grid_witness :
    (1 ≤ 15 ∧ 1 ≤ 15 ∧
      planTiles ⟨0, 0, 1000, 1000⟩ 100 (3/10) =
        (List.range (15 * 15)).map
          (fun k => tileAt ⟨0, 0, 1000, 1000⟩ 100 70 (k / 15) (k % 15)) ∧
      (planTiles ⟨0, 0, 1000, 1000⟩ 100 (3/10)).length = 15 * 15 ∧
      ∀ t ∈ planTiles ⟨0, 0, 1000, 1000⟩ 100 (3/10),
        (0:ℚ) ≤ t.wminx ∧ t.wminx < t.wmaxx ∧ t.wmaxx ≤ 1000 ∧
        (0:ℚ) ≤ t.wminy ∧ t.wminy < t.wmaxy ∧ t.wmaxy ≤ 1000) ∧
    tileAt ⟨0, 0, 1000, 1000⟩ 100 70 14 14 = ⟨14, 14, 980, 1000, 980, 1000⟩ := by
  have hceil : ((15 : ℕ) : ℤ) = ⌈((1000 : ℚ) - 0) / 70⌉ := by
    rw [eq_comm, Int.ceil_eq_iff]
    norm_num
  exact ⟨tile_planner_rowMajor_grid ⟨0, 0, 1000, 1000⟩ 100 (3/10) 70 15 15
      (by norm_num) hceil hceil (by norm_num) (by norm_num) (by norm_num) (by norm_num),
    by norm_num [tileAt]⟩

/-- C4 counterexample: with overlap 1 (step 0) on the 1000-by-1000 extent
the planner does not fail; it produces one window, so no InvalidParameter
rejection happens before window production. -/
theorem tile_planner_overlap_one_counterexample :
    planTiles ⟨0, 0, 1000, 1000⟩ 100 1 = [⟨0, 0, 0, 100, 0, 100⟩] := by
  have hstep : (100 : ℚ) * (1 - 1) ≤ 0 := by norm_num
  simp only [planTiles, if_neg (not_lt.mpr hstep), Int.toNat_one]
  rw [show List.range 1 = [0] from rfl]
  norm_num
  rfl

/-- C4 amended: when overlap is at least 1 (step nonpositive) the planner
does not reject the call; it falls back to a 1-by-1 grid and produces the
single window anchored at the extent minimum corner, clamped. -/
theorem tile_planner_overlap_ge_one (ext : Extent) (ts ov : ℚ)
    (hw : 0 < ext.maxx - ext.minx) (hh : 0 < ext.maxy - ext.miny)
    (hts : 0 < ts) (hov : 1 ≤ ov) :
    planTiles ext ts ov =
      [⟨0, 0, ext.minx, min ext.maxx (ext.minx + ts),
        ext.miny, min ext.maxy (ext.miny + ts)⟩] := by
  have hstep : ts * (1 - ov) ≤ 0 := by nlinarith
  have hx : ¬ (min ext.maxx (ext.minx + ts) ≤ ext.minx) :=
    not_le.mpr (lt_min (by linarith) (by linarith))
  have hy : ¬ (min ext.maxy (ext.miny + ts) ≤ ext.miny) :=
    not_le.mpr (lt_min (by linarith) (by linarith))
  have hxx : ¬ (ext.maxx ≤ ext.minx) := not_le.mpr (by linarith)
  have hyy : ¬ (ext.maxy ≤ ext.miny) := not_le.mpr (by linarith)
  have hts' : ¬ (ts ≤ 0) := not_le.mpr hts
  have hadd : ¬ (ext.minx + ts ≤ ext.minx) := not_le.mpr (by linarith)
  simp only [planTiles, if_neg (not_lt.mpr hstep), Int.toNat_one]
  rw [show List.range 1 = [0] from rfl]
  simp [hx, hy, hxx, hyy, hts', hadd]

/-- Witness for C4 amended: concrete extent, tile_size 100, overlap 1. -/
theorem tile_planner_overlap_ge_one_witness :
    planTiles ⟨0, 0, 500, 400⟩ 100 1 = [⟨0, 0, 0, 100, 0, 100⟩] := by
  have h := tile_planner_overlap_ge_one ⟨0, 0, 500, 400⟩ 100 1
    (by norm_num) (by norm_num) (by norm_num) (by norm_num)
  rw [h]
  norm_num

/-- C5: with a positive target count and positive area the planner
recomputes the tile size as the square root of
area / (count * (1-overlap)^2) — the hypothesis pins `s` to that root —
clamps it to the band from 10 to 0.9 times the largest extent dimension,
and adopts the clamped value exactly when it differs from the current
(post-auto-shrink) size by more than 1 unit; the planner's behaviour
coincides with the spec-side restatement, and the clamped value lies in
the stated band whenever the band is nonempty. -/
theorem target_count_tile_size_adjustment (w h ts ov s : ℚ) (n : ℕ)
    (hn : 0 < n) (harea : 0 < w * h) (hov : ov < 1) (hs : 0 ≤ s)
    (hsq : s * s * ((n : ℚ) * (1 - ov) ^ 2) = w * h) :
    plannedTileSize w h ts ov (some n) s =
      specAdoptTileSize (autoShrinkTileSize w h ts) s (max w h) ∧
    (10 ≤ max w h * (9/10) →
      10 ≤ max 10 (min s (max w h * (9/10))) ∧
      max 10 (min s (max w h * (9/10))) ≤ max w h * (9/10)) := by
  constructor
  · simp only [plannedTileSize, adjustTileSizeForCount, specAdoptTileSize,
      if_pos hn, if_pos harea]
  · intro hband
    exact ⟨le_max_left _ _, max_le hband (min_le_right _ _)⟩

/-- Witness for C5: 1000-by-1000 extent, overlap 0, target 100 images,
square root 100; the recomputed tile size equals the current size 100,
differs by at most 1, and is therefore not adopted. -/
theorem target_count_tile_size_adjustment_witness :
    plannedTileSize 1000 1000 100 0 (some 100) 100 =
      specAdoptTileSize (autoShrinkTileSize 1000 1000 100) 100 (max 1000 1000) ∧
    plannedTileSize 1000 1000 100 0 (some 100) 100 = 100 := by
  have h := target_count_tile_size_adjustment 1000 1000 100 0 100 100
    (by norm_num) (by norm_num) (by norm_num) (by norm_num) (by norm_num)
  refine ⟨h.1, ?_⟩
  rw [h.1]
  norm_num [specAdoptTileSize, autoShrinkTileSize]

/-- C8 counterexample: extent 1000 by 1000, overlap 0, starting tile size
100. Target 4 gives recomputed size 500 (adopted); target 100 gives
recomputed size 100 (within the 1-unit threshold, kept at 100). So the
larger target 100 yields a tile size less than or equal to — in fact far
smaller than — the one for the smaller target 4, refuting the claimed
direction of monotonicity. The squaring facts pin the two square roots. -/
theorem target_count_monotonicity_counterexample :
    (500 : ℚ) * 500 * ((4 : ℕ) * (1 - 0) ^ 2) = 1000 * 1000 ∧
    (100 : ℚ) * 100 * ((100 : ℕ) * (1 - 0) ^ 2) = 1000 * 1000 ∧
    (4 : ℕ) < 100 ∧
    plannedTileSize 1000 1000 100 0 (some 4) 500 = 500 ∧
    plannedTileSize 1000 1000 100 0 (some 100) 100 = 100 ∧
    plannedTileSize 1000 1000 100 0 (some 100) 100 ≤
      plannedTileSize 1000 1000 100 0 (some 4) 500 := by
  have h4 : plannedTileSize 1000 1000 100 0 (some 4) 500 = 500 := by
    have habs : |(500 : ℚ) - 100| = 400 := by
      rw [abs_of_pos (by norm_num)]
      norm_num
    norm_num [plannedTileSize, adjustTileSizeForCount, autoShrinkTileSize, habs]
  have h100 : plannedTileSize 1000 1000 100 0 (some 100) 100 = 100 := by
    norm_num [plannedTileSize, adjustTileSizeForCount, autoShrinkTileSize]
  refine ⟨by norm_num, by norm_num, by norm_num, h4, h100, ?_⟩
  rw [h4, h100]
  norm_num

/-- C8 amended: with the extent and overlap held fixed, a larger target
count never yields a larger tile size than a smaller one (the planned
tile size is antitone in the target count; ties are possible, e.g. under
clamping or the 1-unit no-op threshold). Moreover at the representative
extent 1000 by 1000 with overlap 0.3 and target 225 the recomputed size
2000/21 is adopted and the planner yields exactly 225 = N windows, well
within the 30 percent tolerance of the target. -/
theorem target_count_tile_size_antitone :
    (∀ w h ts ov s1 s2 : ℚ, ∀ n1 n2 : ℕ,
      0 < w * h → 0 < n1 → n1 < n2 → ov < 1 → 0 ≤ s1 → 0 ≤ s2 →
      s1 * s1 * ((n1 : ℚ) * (1 - ov) ^ 2) = w * h →
      s2 * s2 * ((n2 : ℚ) * (1 - ov) ^ 2) = w * h →
      plannedTileSize w h ts ov (some n2) s2 ≤ plannedTileSize w h ts ov (some n1) s1) ∧
    plannedTileSize 1000 1000 100 (3/10) (some 225) (2000/21) = 2000/21 ∧
    (2000/21 : ℚ) * (2000/21) * ((225 : ℕ) * (1 - 3/10) ^ 2) = 1000 * 1000 ∧
    (planTiles ⟨0, 0, 1000, 1000⟩ (2000/21) (3/10)).length = 15 * 15 := by
  refine ⟨?_, ?_, by norm_num, ?_⟩
  · intro w h ts ov s1 s2 n1 n2 harea hn1 h12 hov hs1 hs2 hsq1 hsq2
    have hn2 : 0 < n2 := lt_trans hn1 h12
    have h1ov : (0 : ℚ) < 1 - ov := by linarith
    have hc : (0 : ℚ) < (1 - ov) ^ 2 := pow_pos h1ov 2
    have hn1q : (0 : ℚ) < (n1 : ℚ) := by exact_mod_cast hn1
    have hn12q : ((n1 : ℚ)) < (n2 : ℚ) := by exact_mod_cast h12
    have hs21 : s2 ≤ s1 := by
      by_contra hlt
      push_neg at hlt
      have hs2pos : 0 < s2 := lt_of_le_of_lt hs1 hlt
      have hss : s1 * s1 < s2 * s2 := mul_self_lt_mul_self hs1 hlt
      have hkey : s1 * s1 * ((n1 : ℚ) * (1 - ov) ^ 2) <
          s2 * s2 * ((n2 : ℚ) * (1 - ov) ^ 2) := by
        have ha : s1 * s1 * ((n1 : ℚ) * (1 - ov) ^ 2) ≤
            s2 * s2 * ((n1 : ℚ) * (1 - ov) ^ 2) := by
          apply mul_le_mul_of_nonneg_right (le_of_lt hss)
          positivity
        have hb : s2 * s2 * ((n1 : ℚ) * (1 - ov) ^ 2) <
            s2 * s2 * ((n2 : ℚ) * (1 - ov) ^ 2) :=
          mul_lt_mul_of_pos_left (mul_lt_mul_of_pos_right hn12q hc)
            (mul_pos hs2pos hs2pos)
        linarith
      rw [hsq1, hsq2] at hkey
      exact lt_irrefl _ hkey
    set M := max w h * (9/10) with hM
    have hc21 : max 10 (min s2 M) ≤ max 10 (min s1 M) :=
      max_le_max le_rfl (min_le_min hs21 le_rfl)
    set t1 := autoShrinkTileSize w h ts with ht1
    set c1 := max 10 (min s1 M) with hc1
    set c2 := max 10 (min s2 M) with hc2
    have e1 : plannedTileSize w h ts ov (some n1) s1 =
        if 1 < |c1 - t1| then c1 else t1 := by
      simp only [plannedTileSize, adjustTileSizeForCount, if_pos hn1, if_pos harea,
        ← ht1, ← hM, ← hc1]
    have e2 : plannedTileSize w h ts ov (some n2) s2 =
        if 1 < |c2 - t1| then c2 else t1 := by
      simp only [plannedTileSize, adjustTileSizeForCount, if_pos hn2, if_pos harea,
        ← ht1, ← hM, ← hc2]
    rw [e1, e2]
    by_cases h1 : 1 < |c1 - t1| <;> by_cases h2 : 1 < |c2 - t1|
    · rw [if_pos h1, if_pos h2]
      exact hc21
    · rw [if_pos h1, if_neg h2]
      have hb := abs_le.mp (not_lt.mp h2)
      rcases lt_abs.mp h1 with hgt | hlt
      · linarith
      · linarith [hc21, hb.1]
    · rw [if_neg h1, if_pos h2]
      have hb := abs_le.mp (not_lt.mp h1)
      rcases lt_abs.mp h2 with hgt | hlt
      · linarith [hc21, hb.2]
      · linarith
    · rw [if_neg h1, if_neg h2]
  · have habs : |(2000/21 : ℚ) - 100| = 100/21 := by
      rw [abs_of_neg (by norm_num)]
      norm_num
    norm_num [plannedTileSize, adjustTileSizeForCount, autoShrinkTileSize, habs]
    rw [abs_of_pos (by norm_num)]
    norm_num
  · have hstepdef : (200/3 : ℚ) = (2000/21) * (1 - 3/10) := by norm_num
    have hceil : ((15 : ℕ) : ℤ) = ⌈((1000 : ℚ) - 0) / (200/3)⌉ := by
      have hq : ((1000 : ℚ) - 0) / (200/3) = 15 := by norm_num
      rw [hq, eq_comm, Int.ceil_eq_iff]
      norm_num
    exact planTiles_length ⟨0, 0, 1000, 1000⟩ (2000/21) (3/10) (200/3) 15 15
      hstepdef hceil hceil (by norm_num) (by norm_num)

/-- Witness for C8 amended: the antitone part applied at the concrete
counterexample data, target 4 versus target 100 on the 1000-by-1000
extent with overlap 0. -/
theorem target_count_tile_size_antitone_witness :
    plannedTileSize 1000 1000 100 0 (some 100) 100 ≤
      plannedTileSize 1000 1000 100 0 (some 4) 500 :=
  target_count_tile_size_antitone.1 1000 1000 100 0 500 100 4 100
    (by norm_num) (by norm_num) (by norm_num) (by norm_num) (by norm_num)
    (by norm_num) (by norm_num) (by norm_num)

lemma qmod_eq_self {a b : ℚ} (h0 : 0 ≤ a) (hab : a < b) : qmod a b = a := by
  have hb : 0 < b := lt_of_le_of_lt h0 hab
  have hfl : ⌊a / b⌋ = 0 := by
    rw [Int.floor_eq_zero_iff]
    exact Set.mem_Ico.mpr ⟨div_nonneg h0 hb.le, (div_lt_one hb).mpr hab⟩
  simp [qmod, hfl]

/-- C1 counterexample: count 30, base resolution 1/10, azimuth jitter
constantly -5 (inside the uniform(-5, 5) range): view 0 has base azimuth
0 and the jitter is added after the modulo and never re-normalised, so
the produced azimuth is -5, outside the claimed band 0 to 360. -/
theorem perspective_sampler_azimuth_counterexample :
    ((planViews "cloud" ⟨0, 0, 1000, 1000⟩ 30 (1/10)
        (fun _ => -5) (fun _ => 0) (fun _ => 1)).get? 0).map ViewSpec.azimuth
      = some (-5) ∧
    |(-5 : ℚ)| ≤ 5 ∧ ¬ ((0 : ℚ) ≤ -5) := by
  refine ⟨?_, by norm_num, by norm_num⟩
  have h0 : (0 : ℕ) < 30 := by norm_num
  simp only [planViews, List.getElem?_map, List.getElem?_range h0, Option.map_some]
  norm_num [qmod]

/-- C1 amended: for every extent and every outcome of the jitter sources
with azimuth jitter within the uniform(-5, 5) bound, the sampler at
count 30 and base resolution 1/10 produces exactly 30 ViewSpecs, each
with elevation in the band 10 to 85 and azimuth in the band -5 inclusive
to 360 exclusive (the jitter is added after the modulo, so azimuth can
drop as low as -5; the elevation clamp keeps elevation in band for every
jitter outcome). -/
theorem perspective_sampler_30_views (base : String) (ext : Extent)
    (jA jE jR : ℕ → ℚ) (hA : ∀ i, |jA i| ≤ 5) :
    (planViews base ext 30 (1/10) jA jE jR).length = 30 ∧
    ∀ v ∈ planViews base ext 30 (1/10) jA jE jR,
      10 ≤ v.elevation ∧ v.elevation ≤ 85 ∧ -5 ≤ v.azimuth ∧ v.azimuth < 360 := by
  constructor
  · simp [planViews]
  · intro v hv
    simp only [planViews, List.mem_map, List.mem_range] at hv
    obtain ⟨i, hi30, rfl⟩ := hv
    have h1030 : (10 : ℕ) < 30 := by norm_num
    have hAi := abs_le.mp (hA i)
    have hi29 : (i : ℚ) ≤ 29 := by exact_mod_cast Nat.lt_succ_iff.mp hi30
    have hinn : (0 : ℚ) ≤ (i : ℚ) := by exact_mod_cast Nat.zero_le i
    have hbase : ((i : ℚ) * 360 / ((30 : ℕ) : ℚ)) = 12 * (i : ℚ) := by
      push_cast
      ring
    have hqm : qmod ((i : ℚ) * 360 / ((30 : ℕ) : ℚ)) 360 = 12 * (i : ℚ) := by
      rw [hbase]
      exact qmod_eq_self (by linarith) (by linarith)
    refine ⟨?_, ?_, ?_, ?_⟩
    · simp only [if_pos h1030]
      exact le_max_left _ _
    · simp only [if_pos h1030]
      exact max_le (by norm_num) (min_le_left _ _)
    · simp only [if_pos h1030, hqm]
      linarith
    · simp only [if_pos h1030, hqm]
      linarith

/-- Witness for C1 amended: concrete extent and zero jitter sources. -/
theorem perspective_sampler_30_views_witness :
    (planViews "cloud" ⟨0, 0, 1000, 1000⟩ 30 (1/10)
        (fun _ => 0) (fun _ => 0) (fun _ => 1)).length = 30 ∧
    ∀ v ∈ planViews "cloud" ⟨0, 0, 1000, 1000⟩ 30 (1/10)
        (fun _ => 0) (fun _ => 0) (fun _ => 1),
      10 ≤ v.elevation ∧ v.elevation ≤ 85 ∧ -5 ≤ v.azimuth ∧ v.azimuth < 360 :=
  perspective_sampler_30_views "cloud" ⟨0, 0, 1000, 1000⟩
    (fun _ => 0) (fun _ => 0) (fun _ => 1) (fun i => by norm_num)

/-- C7 counterexample: the source formats perspective filenames with the
loop index plus one, so view index 0 (azimuth 0, elevation 10) yields
cloud_view_001_..., not the cloud_view_000_... that the claimed 0-based
convention prescribes. -/
theorem output_filenames_counterexample :
    viewFileName "cloud" 0 0 10 = "cloud_view_001_az0_el10.tif" ∧
    specViewFileName "cloud" 0 (pyInt 0) (pyInt 10) = "cloud_view_000_az0_el10.tif" ∧
    viewFileName "cloud" 0 0 10 ≠ specViewFileName "cloud" 0 (pyInt 0) (pyInt 10) := by
  refine ⟨by decide, by decide, by decide⟩

/-- C7 amended: tile and single-image filenames are produced exactly as
the claimed convention states; perspective-view filenames embed the view
index plus one (so the 3-digit fields run 001 to count), while the view
indices themselves run 0 to count-1 in order. -/
theorem output_filenames_amended :
    (∀ base mode : String, ∀ row col : ℕ,
      tileFileName base mode row col = specTileFileName base mode row col) ∧
    (∀ base : String, ∀ ext : Extent, ∀ count : ℕ, ∀ res : ℚ, ∀ jA jE jR : ℕ → ℚ,
      (planViews base ext count res jA jE jR).map ViewSpec.index = List.range count ∧
      ∀ v ∈ planViews base ext count res jA jE jR,
        v.name = specViewFileName base (v.index + 1) (pyInt v.azimuth) (pyInt v.elevation)) ∧
    (∀ base mode resStr : String,
      singleImageFileName base mode resStr = specSingleImageFileName base mode resStr) := by
  refine ⟨fun base mode row col => rfl, ?_, fun base mode resStr => rfl⟩
  intro base ext count res jA jE jR
  constructor
  · simp only [planViews, List.map_map]
    exact List.map_id _
  · intro v hv
    simp only [planViews, List.mem_map, List.mem_range] at hv
    obtain ⟨i, hi, rfl⟩ := hv
    rfl

/-- Witness for C7 amended: concrete tile and single-image names, and a
concrete plan at count 1 whose single view (index 0, azimuth 0,
elevation 10) carries the name with 3-digit field 001. -/
theorem output_filenames_amended_witness :
    tileFileName "cloud" "intensity" 3 7 = specTileFileName "cloud" "intensity" 3 7 ∧
    singleImageFileName "cloud" "rgb" "0.1" = specSingleImageFileName "cloud" "rgb" "0.1" ∧
    (planViews "c" ⟨0, 0, 10, 10⟩ 1 1
        (fun _ => 0) (fun _ => 0) (fun _ => 1)).map ViewSpec.index = List.range 1 ∧
    ViewSpec.mk 0 0 10 0 6 0 6 1 "c_view_001_az0_el10.tif" ∈
      planViews "c" ⟨0, 0, 10, 10⟩ 1 1 (fun _ => 0) (fun _ => 0) (fun _ => 1) ∧
    "c_view_001_az0_el10.tif" =
      specViewFileName "c" (0 + 1) (pyInt 0) (pyInt 10) := by
  have hg : natCeilSqrt 1 = 1 := by norm_num [natCeilSqrt]
  have hplan : planViews "c" ⟨0, 0, 10, 10⟩ 1 1 (fun _ => 0) (fun _ => 0) (fun _ => 1) =
      [ViewSpec.mk 0 0 10 0 6 0 6 1 "c_view_001_az0_el10.tif"] := by
    rw [show (1 : ℕ) = 0 + 1 from rfl]
    simp only [planViews, List.range_succ, List.range_zero, List.nil_append,
      List.map_cons, List.map_nil, hg]
    norm_num [qmod]
    decide
  have hmem : ViewSpec.mk 0 0 10 0 6 0 6 1 "c_view_001_az0_el10.tif" ∈
      planViews "c" ⟨0, 0, 10, 10⟩ 1 1 (fun _ => 0) (fun _ => 0) (fun _ => 1) := by
    rw [hplan]
    exact List.mem_singleton.mpr rfl
  refine ⟨output_filenames_amended.1 "cloud" "intensity" 3 7,
    output_filenames_amended.2.2 "cloud" "rgb" "0.1",
    (output_filenames_amended.2.1 "c" ⟨0, 0, 10, 10⟩ 1 1
      (fun _ => 0) (fun _ => 0) (fun _ => 1)).1,
    hmem,
    (output_filenames_amended.2.1 "c" ⟨0, 0, 10, 10⟩ 1 1
      (fun _ => 0) (fun _ => 0) (fun _ => 1)).2 _ hmem⟩

/-- C2 counterexample: a multiview-tile TrueColor dispatch where the Red
band succeeds, the Green band fails, and the Intensity fallback succeeds.
The final artifact is the Intensity raster, but the already-created Red
band file (band index 0) remains on disk: the claim that no partially
created component band files remain is violated on the tile path, whose
fallback handler never removes them. -/
theorem truecolor_fallback_counterexample :
    dispatchTileRgb ⟨fun i => i == 0, true, true, true⟩ =
      (TileOutcome.intensity, [0]) ∧
    ([0] : List ℕ) ≠ [] := by
  exact ⟨rfl, by decide⟩

/-- C2 amended: for every engine outcome in which some component band
fails (firstBandFail hits) and the Intensity rasterization succeeds, the
perspective-view dispatcher re-issues the view as Intensity — one hop,
and the result is the Intensity artifact with no band files left — and
the multiview-tile dispatcher likewise produces the Intensity artifact,
but on the tile path partially created band files may remain on disk.
When a band fails, the perspective dispatch never produces an RGB
artifact and never chains past Intensity: the outcome is Intensity or
nothing. -/
theorem truecolor_fallback_amended :
    (∀ e : ViewEngine,
      (e.bandOk 0 = false ∨ e.bandOk 1 = false ∨ e.bandOk 2 = false) →
      e.intensityOk = true →
      dispatchViewRgb e = (ViewOutcome.intensity, [])) ∧
    (∀ e : TileEngine,
      (e.bandOk 0 = false ∨ e.bandOk 1 = false ∨ e.bandOk 2 = false) →
      e.intensityOk = true →
      (dispatchTileRgb e).1 = TileOutcome.intensity) ∧
    (∀ e : ViewEngine,
      (e.bandOk 0 = false ∨ e.bandOk 1 = false ∨ e.bandOk 2 = false) →
      (dispatchViewRgb e).1 = ViewOutcome.intensity ∨
        (dispatchViewRgb e).1 = ViewOutcome.failed) := by
  refine ⟨?_, ?_, ?_⟩
  · intro e hband hint
    have hff : ∃ k, firstBandFail e.bandOk = some k := by
      rcases hband with h | h | h
      · exact ⟨0, by simp [firstBandFail, h]⟩
      · rcases h0 : e.bandOk 0 with _ | _
        · exact ⟨0, by simp [firstBandFail, h0]⟩
        · exact ⟨1, by simp [firstBandFail, h0, h]⟩
      · rcases h0 : e.bandOk 0 with _ | _
        · exact ⟨0, by simp [firstBandFail, h0]⟩
        · rcases h1 : e.bandOk 1 with _ | _
          · exact ⟨1, by simp [firstBandFail, h0, h1]⟩
          · exact ⟨2, by simp [firstBandFail, h0, h1, h]⟩
    obtain ⟨k, hk⟩ := hff
    simp [dispatchViewRgb, hk, hint]
  · intro e hband hint
    have hff : ∃ k, firstBandFail e.bandOk = some k := by
      rcases hband with h | h | h
      · exact ⟨0, by simp [firstBandFail, h]⟩
      · rcases h0 : e.bandOk 0 with _ | _
        · exact ⟨0, by simp [firstBandFail, h0]⟩
        · exact ⟨1, by simp [firstBandFail, h0, h]⟩
      · rcases h0 : e.bandOk 0 with _ | _
        · exact ⟨0, by simp [firstBandFail, h0]⟩
        · rcases h1 : e.bandOk 1 with _ | _
          · exact ⟨1, by simp [firstBandFail, h0, h1]⟩
          · exact ⟨2, by simp [firstBandFail, h0, h1, h]⟩
    obtain ⟨k, hk⟩ := hff
    simp [dispatchTileRgb, hk, hint]
  · intro e hband
    have hff : ∃ k, firstBandFail e.bandOk = some k := by
      rcases hband with h | h | h
      · exact ⟨0, by simp [firstBandFail, h]⟩
      · rcases h0 : e.bandOk 0 with _ | _
        · exact ⟨0, by simp [firstBandFail, h0]⟩
        · exact ⟨1, by simp [firstBandFail, h0, h]⟩
      · rcases h0 : e.bandOk 0 with _ | _
        · exact ⟨0, by simp [firstBandFail, h0]⟩
        · rcases h1 : e.bandOk 1 with _ | _
          · exact ⟨1, by simp [firstBandFail, h0, h1]⟩
          · exact ⟨2, by simp [firstBandFail, h0, h1, h]⟩
    obtain ⟨k, hk⟩ := hff
    rcases hint : e.intensityOk with _ | _
    · right
      simp [dispatchViewRgb, hk, hint]
    · left
      simp [dispatchViewRgb, hk, hint]

/-- Witness for C2 amended: concrete engines with the Red band failing
and the Intensity rasterization succeeding; the perspective dispatch
yields the cropped Intensity artifact with no leftover bands, the tile
dispatch yields an Intensity artifact, and the perspective outcome is in
the Intensity-or-nothing pair. -/
theorem truecolor_fallback_amended_witness :
    dispatchViewRgb ⟨fun _ => false, true, true, true, true⟩ =
      (ViewOutcome.intensity, []) ∧
    (dispatchTileRgb ⟨fun _ => false, true, true, true⟩).1 = TileOutcome.intensity ∧
    ((dispatchViewRgb ⟨fun _ => false, true, true, true, true⟩).1 = ViewOutcome.intensity ∨
      (dispatchViewRgb ⟨fun _ => false, true, true, true, true⟩).1 = ViewOutcome.failed) :=
  ⟨truecolor_fallback_amended.1 ⟨fun _ => false, true, true, true, true⟩
      (Or.inl rfl) rfl,
    truecolor_fallback_amended.2.1 ⟨fun _ => false, true, true, true⟩
      (Or.inl rfl) rfl,
    truecolor_fallback_amended.2.2 ⟨fun _ => false, true, true, true, true⟩
      (Or.inl rfl)⟩

/-- C6: the collector reports success exactly when at least one valid
artifact is collected (so fewer artifacts than inputs is still success
and only zero artifacts is failure), zero-byte input TIFs never
contribute an artifact, and JPG outputs that are empty or lack the JPEG
0xff 0xd8 marker never contribute an artifact. -/
theorem output_collector_valid_artifacts :
    (∀ tifs : List TifInput,
      ((convertTifsToJpgs tifs).1 = true ↔ (convertTifsToJpgs tifs).2 ≠ []) ∧
      ((convertTifsToJpgs tifs).2 = tifs.filterMap convertOne ∨
        (convertTifsToJpgs tifs).2 = [])) ∧
    (∀ t : TifInput, t.size = 0 → convertOne t = none) ∧
    (∀ t : TifInput, ∀ j : JpgOut, t.conv = some j → j.size = 0 → convertOne t = none) ∧
    (∀ t : TifInput, ∀ j : JpgOut, t.conv = some j → j.hdr ≠ [255, 216] →
      convertOne t = none) := by
  refine ⟨?_, ?_, ?_, ?_⟩
  · intro tifs
    by_cases hnil : tifs = []
    · subst hnil
      simp [convertTifsToJpgs]
    · by_cases hjs : tifs.filterMap convertOne = []
      · constructor
        · simp [convertTifsToJpgs, hnil, hjs]
        · right
          simp [convertTifsToJpgs, hnil, hjs]
      · constructor
        · simp [convertTifsToJpgs, hnil, hjs]
        · left
          simp [convertTifsToJpgs, hnil, hjs]
  · intro t ht
    simp [convertOne, ht]
  · intro t j hconv hsz
    rcases htz : t.size with _ | n
    · simp [convertOne, htz]
    · simp [convertOne, htz, hconv, hsz]
  · intro t j hconv hhdr
    rcases htz : t.size with _ | n
    · simp [convertOne, htz]
    · rcases hjz : j.size with _ | m
      · simp [convertOne, htz, hconv, hjz]
      · simp [convertOne, htz, hconv, hjz, hhdr]

/-- Witness for C6: the spec scenario — a directory holding one
zero-byte TIF and one valid 500-byte TIF whose conversion produces a
valid JPG — yields exactly one artifact and success; the success-iff
part comes from the theorem at that input. -/
theorem output_collector_valid_artifacts_witness :
    convertTifsToJpgs
        [⟨"a", 0, none⟩, ⟨"b", 500, some ⟨1234, [255, 216]⟩⟩] =
      (true, ["b.jpg"]) ∧
    ((convertTifsToJpgs
        [⟨"a", 0, none⟩, ⟨"b", 500, some ⟨1234, [255, 216]⟩⟩]).1 = true ↔
      (convertTifsToJpgs
        [⟨"a", 0, none⟩, ⟨"b", 500, some ⟨1234, [255, 216]⟩⟩]).2 ≠ []) ∧
    convertOne ⟨"a", 0, none⟩ = none :=
  ⟨by decide,
    (output_collector_valid_artifacts.1
      [⟨"a", 0, none⟩, ⟨"b", 500, some ⟨1234, [255, 216]⟩⟩]).1,
    output_collector_valid_artifacts.2.1 ⟨"a", 0, none⟩ rfl⟩

lemma bool_and_right {a b : Bool} (h : (a && b) = true) : b = true := by
  rcases a <;> rcases b <;> simp_all

lemma mem_firstNonemptyMatch {pats : List (String → Bool)} {files : List String}
    {f : String} (hf : f ∈ firstNonemptyMatch pats files) :
    f ∈ files ∧ ∃ p ∈ pats, p f = true := by
  induction pats with
  | nil => simp [firstNonemptyMatch] at hf
  | cons p ps ih =>
    simp only [firstNonemptyMatch] at hf
    by_cases hm : files.filter p = []
    · rw [if_pos hm] at hf
      obtain ⟨hmem, q, hq, hqf⟩ := ih hf
      exact ⟨hmem, q, List.mem_cons_of_mem p hq, hqf⟩
    · rw [if_neg hm] at hf
      obtain ⟨hmem, hpf⟩ := List.mem_filter.mp hf
      exact ⟨hmem, p, List.mem_cons_self p ps, hpf⟩

lemma firstNonemptyMatch_ne_nil {pats : List (String → Bool)} {files : List String}
    {p : String → Bool} (hp : p ∈ pats) {f : String} (hf : f ∈ files)
    (hpf : p f = true) : firstNonemptyMatch pats files ≠ [] := by
  induction pats with
  | nil => cases hp
  | cons q qs ih =>
    simp only [firstNonemptyMatch]
    by_cases hm : files.filter q = []
    · rw [if_pos hm]
      rcases List.mem_cons.mp hp with rfl | htail
      · exact absurd (List.filter_eq_nil_iff.mp hm f hf) (by simp [hpf])
      · exact ih htail
    · rw [if_neg hm]
      exact hm

lemma wrapperPatterns_imply_tif (kind : RunKind) (mode : String) :
    ∀ p ∈ wrapperPatterns kind mode, ∀ f : String,
      p f = true → strEndsWith f ".tif" = true := by
  cases kind <;> intro p hp f hf <;>
    simp only [wrapperPatterns, List.mem_cons, List.not_mem_nil, or_false] at hp
  · rcases hp with rfl | rfl | rfl
    · exact bool_and_right hf
    · exact bool_and_right hf
    · exact hf
  · rcases hp with rfl | rfl | rfl | rfl
    · exact bool_and_right hf
    · exact bool_and_right hf
    · exact bool_and_right hf
    · exact hf

lemma wrapperFallbackPattern_implies_tif (kind : RunKind) (mode : String)
    (f : String) (hf : wrapperFallbackPattern kind mode f = true) :
    strEndsWith f ".tif" = true := by
  cases kind
  · exact bool_and_right hf
  · by_cases hm : mode = "rgb"
    · rw [wrapperFallbackPattern, if_pos hm] at hf
      exact bool_and_right hf
    · rw [wrapperFallbackPattern, if_neg hm] at hf
      exact bool_and_right hf

lemma patAllTif_mem_wrapperPatterns (kind : RunKind) (mode : String) :
    patAllTif ∈ wrapperPatterns kind mode := by
  cases kind <;> simp [wrapperPatterns]

/-- C9 counterexample: perspective run, the conversion function returned
success, but the directory holds no files: the wrapper reports failure
even though the function did not return failure, refuting the claim that
failure is reported only when the function returned failure as well. -/
theorem wrapper_reconciliation_counterexample :
    wrapperCollect RunKind.perspective "intensity" true [] =
      (false, [], some "No output files were created") := by
  decide

/-- C9 amended: after a multiview or perspective run the wrapper reports
success with the matched files exactly when at least one file ending in
.tif is present in the output directory — in particular even when the
conversion function returned failure — and reports failure exactly when
no such file exists, regardless of the function's return value (which
only selects the error message). Every returned file comes from the
directory and ends in .tif. -/
theorem wrapper_reconciliation (kind : RunKind) (mode : String)
    (success : Bool) (dirFiles : List String) :
    ((wrapperCollect kind mode success dirFiles).1 = true ↔
      ∃ f ∈ dirFiles, strEndsWith f ".tif" = true) ∧
    ((wrapperCollect kind mode success dirFiles).1 = true →
      (wrapperCollect kind mode success dirFiles).2.1 ≠ [] ∧
      ∀ f ∈ (wrapperCollect kind mode success dirFiles).2.1,
        f ∈ dirFiles ∧ strEndsWith f ".tif" = true) := by
  by_cases hfm : firstNonemptyMatch (wrapperPatterns kind mode) dirFiles = []
  · have hno : ¬ ∃ f ∈ dirFiles, strEndsWith f ".tif" = true := by
      rintro ⟨f, hfd, hft⟩
      exact firstNonemptyMatch_ne_nil (patAllTif_mem_wrapperPatterns kind mode)
        hfd hft hfm
    have hfil : dirFiles.filter (wrapperFallbackPattern kind mode) = [] := by
      apply List.filter_eq_nil_iff.mpr
      intro f hfd hpf
      exact hno ⟨f, hfd, wrapperFallbackPattern_implies_tif kind mode f hpf⟩
    have hres : (wrapperCollect kind mode success dirFiles).1 = false := by
      rcases success with _ | _ <;>
        simp [wrapperCollect, hfm, hfil]
    constructor
    · rw [hres]
      simp only [Bool.false_eq_true, false_iff]
      exact hno
    · intro habs
      rw [hres] at habs
      cases habs
  · have hres : wrapperCollect kind mode success dirFiles =
        (true, firstNonemptyMatch (wrapperPatterns kind mode) dirFiles, none) := by
      simp [wrapperCollect, hfm]
    rw [hres]
    constructor
    · simp only [true_iff]
      obtain ⟨f, hf⟩ := List.exists_mem_of_ne_nil _ hfm
      obtain ⟨hfd, p, hp, hpf⟩ := mem_firstNonemptyMatch hf
      exact ⟨f, hfd, wrapperPatterns_imply_tif kind mode p hp f hpf⟩
    · intro _
      refine ⟨hfm, ?_⟩
      intro f hf
      obtain ⟨hfd, p, hp, hpf⟩ := mem_firstNonemptyMatch hf
      exact ⟨hfd, wrapperPatterns_imply_tif kind mode p hp f hpf⟩

/-- Witness for C9 amended: a perspective run whose conversion function
returned failure while a view .tif sits in the directory — the wrapper
reports success and returns that file. -/
theorem wrapper_reconciliation_witness :
    (wrapperCollect RunKind.perspective "intensity" false
        ["a_view_001_az0_el10.tif"]).1 = true ∧
    ∀ f ∈ (wrapperCollect RunKind.perspective "intensity" false
        ["a_view_001_az0_el10.tif"]).2.1,
      f ∈ ["a_view_001_az0_el10.tif"] ∧ strEndsWith f ".tif" = true := by
  have h := wrapper_reconciliation RunKind.perspective "intensity" false
    ["a_view_001_az0_el10.tif"]
  have hsucc : (wrapperCollect RunKind.perspective "intensity" false
      ["a_view_001_az0_el10.tif"]).1 = true :=
    h.1.mpr ⟨"a_view_001_az0_el10.tif", by decide, by decide⟩
  exact ⟨hsucc, (h.2 hsucc).2⟩

/-- C10: the basename reduction does not neutralise a bare ".."
component. With MEDIA_TMP at /var/www/media/tmp, the request
temp_dir = ".." and filename = "converted_images.zip" makes the first
probed candidate resolve to /var/www/media/converted_images.zip, which
does not lie under MEDIA_TMP — contradicting both the claim and the
source's own security comment (lasconversion.py line 805). -/
theorem download_path_traversal_bug :
    pyBasename ".." = ".." ∧
    (candidatePaths ["var", "www", "media", "tmp"] ".." "converted_images.zip").get? 0 =
      some ["var", "www", "media", "tmp", "..", "converted_images.zip"] ∧
    resolveSegs ["var", "www", "media", "tmp", "..", "converted_images.zip"] =
      ["var", "www", "media", "converted_images.zip"] ∧
    ¬ (["var", "www", "media", "tmp"] <+:
        ["var", "www", "media", "converted_images.zip"]) := by
  refine ⟨by decide, by decide, by decide, by decide⟩
